import Mathlib

/-!
Shallow embedding of the dataform-assguard incremental pipeline
(src/main.py, src/dataform_api.py, src/bigquery_client.py) together with
theorems settling the specification claims about it.
-/

set_option linter.unusedVariables false

/-! String helpers mirroring Python semantics. -/

/-- Character-list prefix test, used to express Python substring containment. -/
def charPrefixTest : List Char → List Char → Bool
  | [], _ => true
  | _ :: _, [] => false
  | a :: as, b :: bs => a = b && charPrefixTest as bs

/-- Python `needle in haystack` substring containment over character lists. -/
def charContains (needle : List Char) : List Char → Bool
  | [] => charPrefixTest needle []
  | c :: cs => charPrefixTest needle (c :: cs) || charContains needle cs

/-- Python `str.lower` on one character (ASCII range, the alphabet of the
"assertion" test). -/
def lowerChar (c : Char) : Char :=
  if 65 ≤ c.toNat ∧ c.toNat ≤ 90 then Char.ofNat (c.toNat + 32) else c

/-- The qualifying test of main.py line 97: `"assertion" in action_name.lower()`. -/
def containsAssertion (s : String) : Bool :=
  charContains "assertion".toList (s.toList.map lowerChar)

/-! Data model: the JSON payload shapes consumed by main.py.  Absent
dictionary keys are `none`; `dict.get(k, default)` becomes `Option.getD`. -/

/-- Raw upstream timestamp value as it sits in the JSON payload: either a
well-formed instant (nanoseconds since the epoch, UTC) or a string that
`pd.to_datetime` fails to parse. -/
inductive RawTime where
  | instant (ns : Int)
  | malformed (s : String)
deriving DecidableEq, Repr

/-- The `target` sub-dictionary of an action (main.py lines 96, 102-104). -/
structure Target where
  name : Option String
  database : Option String
  schema : Option String
deriving DecidableEq, Repr

/-- Python `{}`: the default supplied by `action.get("target", {})`. -/
def Target.empty : Target := ⟨none, none, none⟩

/-- The `invocationTiming` sub-dictionary of an action (main.py lines 100-101). -/
structure InvocationTiming where
  startTime : Option RawTime
  endTime : Option RawTime
deriving DecidableEq, Repr

/-- Python `{}`: the default supplied by `action.get("invocationTiming", {})`. -/
def InvocationTiming.empty : InvocationTiming := ⟨none, none⟩

/-- One workflow invocation action as returned by the Dataform API. -/
structure InvocationAction where
  target : Option Target
  invocationTiming : Option InvocationTiming
  state : Option String
  failureReason : Option String
deriving DecidableEq, Repr

/-- One workflow invocation; only its `name` field is read (main.py line 77). -/
structure Invocation where
  name : Option String
deriving DecidableEq, Repr

/-- One element of `assertion_data` (main.py lines 110-119): the flat record
built for a qualifying action, timestamps still in raw payload form. -/
structure AssertionRecord where
  Start_Time : Option RawTime
  End_Time : Option RawTime
  Invocation_Name : String
  Action_Name : String
  Database : String
  Schema : String
  State : String
  Failure_Reason : String
deriving DecidableEq, Repr

/-! Extraction: main.py lines 74-119. -/

/-- Body of the inner loop of main.py lines 95-119 for one action: returns the
record appended to `assertion_data`, or `none` when the action does not qualify
(line 97-98). -/
def extractFromAction (invocation_name : String) (a : InvocationAction) : Option AssertionRecord :=
  if containsAssertion (((a.target.getD Target.empty).name).getD "") then
    some {
      Start_Time := (a.invocationTiming.getD InvocationTiming.empty).startTime
      End_Time := (a.invocationTiming.getD InvocationTiming.empty).endTime
      Invocation_Name := invocation_name
      Action_Name := ((a.target.getD Target.empty).name).getD ""
      Database := ((a.target.getD Target.empty).database).getD "N/A"
      Schema := ((a.target.getD Target.empty).schema).getD "N/A"
      State := a.state.getD "UNKNOWN"
      Failure_Reason :=
        if a.state.getD "UNKNOWN" = "FAILED" then a.failureReason.getD "N/A" else "N/A" }
  else none

/-- Outcome of the `query_invocation_actions` call site in main.py lines 85-92:
either the call raised (caught by the `except` branch, line 90-92, which skips
the invocation) or it returned a list of actions. -/
inductive QueryOutcome where
  | raised
  | ok (actions : List InvocationAction)

/-- Body of the outer loop of main.py lines 76-119 for one invocation: the
records this invocation contributes to `assertion_data`. -/
def processInvocation (processed : List String) (query : String → QueryOutcome)
    (inv : Invocation) : List AssertionRecord :=
  let invocation_name := inv.name.getD "N/A"
  if invocation_name ∈ processed then []
  else
    match query invocation_name with
    | QueryOutcome.raised => []
    | QueryOutcome.ok actions =>
        if actions.isEmpty then []
        else actions.filterMap (extractFromAction invocation_name)

/-- The whole extraction loop of main.py lines 74-119: `assertion_data`. -/
def collectAssertionData (processed : List String) (invocations : List Invocation)
    (query : String → QueryOutcome) : List AssertionRecord :=
  invocations.flatMap (processInvocation processed query)

/-! Dataform API layer: src/dataform_api.py. -/

/-- Outcome of one HTTP request as seen by dataform_api.py: a 2xx response
whose JSON body may or may not carry the list field, a response that makes
`raise_for_status` raise `HTTPError`, or a `RequestException` from transport. -/
inductive ApiResult (α : Type) where
  | success (body : Option α)
  | httpError
  | requestException

/-- dataform_api.py lines 7-22: `list_workflow_invocations`.  The JSON field
`workflowInvocations` defaults to `[]`; both exception branches return `[]`. -/
def list_workflow_invocations : ApiResult (List Invocation) → List Invocation
  | ApiResult.success body => body.getD []
  | ApiResult.httpError => []
  | ApiResult.requestException => []

/-- dataform_api.py lines 24-38: `query_invocation_actions`.  The JSON field
`workflowInvocationActions` defaults to `[]`; both exception branches return `[]`. -/
def query_invocation_actions : ApiResult (List InvocationAction) → List InvocationAction
  | ApiResult.success body => body.getD []
  | ApiResult.httpError => []
  | ApiResult.requestException => []

/-! Timestamp normalization: main.py lines 127-142. -/

/-- Element-wise semantics of `pd.to_datetime(x, errors="coerce")` followed by
`.dt.tz_localize(None)`: a missing value or an unparsable string becomes NaT
(here `none`); a well-formed UTC instant keeps its nanosecond count, the
timezone tag being dropped by `tz_localize(None)`. -/
def pd_to_datetime_coerce : Option RawTime → Option Int
  | none => none
  | some (RawTime.malformed _) => none
  | some (RawTime.instant ns) => some ns

/-- Round-half-even integer division (the rounding used by pandas
`.dt.round("us")`), for a positive divisor `d`. -/
def rdivHalfEven (n : Int) (d : Int) : Int :=
  let q := Int.fdiv n d
  let r := n - q * d
  if 2 * r < d then q
  else if d < 2 * r then q + 1
  else if q % 2 = 0 then q else q + 1

/-- Full per-element conversion chain of main.py lines 130-134 / 138-142:
`pd.to_datetime(errors="coerce").dt.tz_localize(None).dt.round("us")`,
yielding a timezone-naive timestamp in microseconds since the epoch. -/
def convertTime (x : Option RawTime) : Option Int :=
  (pd_to_datetime_coerce x).map (fun ns => rdivHalfEven ns 1000)

/-- A row of the DataFrame after timestamp conversion: timestamps are now
timezone-naive microsecond counts (or null).  This is also the fact-table
row shape of bigquery_client.py lines 80-89. -/
structure NormRecord where
  Start_Time : Option Int
  End_Time : Option Int
  Invocation_Name : String
  Action_Name : String
  Database : String
  Schema : String
  State : String
  Failure_Reason : String
deriving DecidableEq, Repr

/-- Per-row effect of the two column conversions of main.py lines 127-142:
both timestamp columns are converted element-wise, every other column is
left untouched. -/
def convertRecord (r : AssertionRecord) : NormRecord :=
  { Start_Time := convertTime r.Start_Time
    End_Time := convertTime r.End_Time
    Invocation_Name := r.Invocation_Name
    Action_Name := r.Action_Name
    Database := r.Database
    Schema := r.Schema
    State := r.State
    Failure_Reason := r.Failure_Reason }

/-- The two column conversions of main.py lines 127-142 applied to the whole
DataFrame. -/
def convertTimestamps (rs : List AssertionRecord) : List NormRecord :=
  rs.map convertRecord

/-! Sorting: main.py lines 144-147,
`df.sort_values(by="Start_Time", ascending=False, na_position="last")`.
pandas computes the row order with `nargsort`: the NaT mask is split off, the
non-null values are reversed (descending), argsorted with the default
`kind="quicksort"` (numpy's introsort `aquicksort`), the result is reversed
back and the NaT positions are appended.  The numpy routine is transcribed
below (SMALL_QUICKSORT = 15, median-of-3 pivot, Hoare partition on an index
array, insertion sort for small segments, heapsort beyond the depth limit). -/

/-- Index-array read with a junk default (all accesses stay in bounds). -/
def aGetN (t : Array Nat) (i : Nat) : Nat := t.getD i 0

/-- Value-array read with a junk default (all accesses stay in bounds). -/
def aGetV (v : Array Int) (i : Nat) : Int := v.getD i 0

/-- Value currently at slot `i` of the index array: `v[tosort[i]]`. -/
def keyAt (v : Array Int) (t : Array Nat) (i : Nat) : Int := aGetV v (aGetN t i)

/-- Swap two slots of the index array. -/
def aSwap (t : Array Nat) (i j : Nat) : Array Nat :=
  let x := aGetN t i
  let y := aGetN t j
  (t.setD i y).setD j x

/-- Inner shift loop of numpy's insertion sort:
`while (pj > pl && LT(vp, v[*pk])) *pj-- = *pk--; *pj = vi;`. -/
def insSortShift (v : Array Int) (pl : Nat) (vi : Nat) (vp : Int) :
    Array Nat → Nat → Array Nat
  | t, 0 => t.setD 0 vi
  | t, pj+1 =>
    if pl < pj + 1 ∧ vp < keyAt v t pj then
      insSortShift v pl vi vp (t.setD (pj+1) (aGetN t pj)) pj
    else t.setD (pj+1) vi

/-- Insertion sort of the index-array segment `[pl, pr]` (numpy `aquicksort`,
small-segment branch). -/
def insSortRange (v : Array Int) (t : Array Nat) (pl pr : Nat) : Array Nat :=
  (List.range' (pl + 1) (pr - pl)).foldl
    (fun acc pi => insSortShift v pl (aGetN acc pi) (aGetV v (aGetN acc pi)) acc pi) t

/-- Partition scan `do ++pi; while (LT(v[*pi], vp));`. -/
def scanUp (v : Array Int) (t : Array Nat) (vp : Int) : Nat → Nat → Nat
  | 0, pi => pi + 1
  | fuel+1, pi => if keyAt v t (pi + 1) < vp then scanUp v t vp fuel (pi + 1) else pi + 1

/-- Partition scan `do --pj; while (LT(vp, v[*pj]));`. -/
def scanDown (v : Array Int) (t : Array Nat) (vp : Int) : Nat → Nat → Nat
  | 0, pj => pj - 1
  | fuel+1, pj => if vp < keyAt v t (pj - 1) then scanDown v t vp fuel (pj - 1) else pj - 1

/-- Hoare partition exchange loop of numpy `aquicksort`. -/
def partitionLoop (v : Array Int) (vp : Int) : Nat → Array Nat → Nat → Nat → Array Nat × Nat
  | 0, t, pi, _pj => (t, pi)
  | fuel+1, t, pi, pj =>
    let pi' := scanUp v t vp t.size pi
    let pj' := scanDown v t vp t.size pj
    if pj' ≤ pi' then (t, pi')
    else partitionLoop v vp fuel (aSwap t pi' pj') pi' pj'

/-- One partition step of numpy `aquicksort` on the segment `[pl, pr]`:
median-of-3 pivot selection, pivot stashed at `pr - 1`, Hoare partition,
pivot swapped into its final slot `pi`. -/
def qsortPartition (v : Array Int) (t : Array Nat) (pl pr : Nat) : Array Nat × Nat :=
  let pm := pl + (pr - pl) / 2
  let t := if keyAt v t pm < keyAt v t pl then aSwap t pm pl else t
  let t := if keyAt v t pr < keyAt v t pm then aSwap t pr pm else t
  let t := if keyAt v t pm < keyAt v t pl then aSwap t pm pl else t
  let vp := keyAt v t pm
  let t := aSwap t pm (pr - 1)
  let step := partitionLoop v vp (pr - pl + 2) t pl (pr - 1)
  (aSwap step.1 step.2 (pr - 1), step.2)

/-- Heap slot read: numpy `aheapsort` works 1-based through `a = tosort - 1`,
here offset by the segment base `pl`. -/
def hGet (t : Array Nat) (pl i : Nat) : Nat := aGetN t (pl + i - 1)

/-- Heap slot write, 1-based with segment base `pl`. -/
def hSet (t : Array Nat) (pl i : Nat) (x : Nat) : Array Nat := t.setD (pl + i - 1) x

/-- Sift-down loop shared by both phases of numpy `aheapsort`. -/
def siftDown (v : Array Int) (pl : Nat) (tmp : Nat) (n : Nat) :
    Nat → Array Nat → Nat → Nat → Array Nat
  | 0, t, i, _j => hSet t pl i tmp
  | fuel+1, t, i, j =>
    if j ≤ n then
      let j := if j < n ∧ aGetV v (hGet t pl j) < aGetV v (hGet t pl (j + 1)) then j + 1 else j
      if aGetV v tmp < aGetV v (hGet t pl j) then
        siftDown v pl tmp n fuel (hSet t pl i (hGet t pl j)) j (2 * j)
      else hSet t pl i tmp
    else hSet t pl i tmp

/-- numpy `aheapsort` on the index-array segment of length `n` based at `pl`
(the depth-limit fallback of `aquicksort`). -/
def aheapsort (v : Array Int) (t : Array Nat) (pl n : Nat) : Array Nat :=
  let t := (List.range (n / 2)).foldl
    (fun acc k =>
      let l := n / 2 - k
      siftDown v pl (hGet acc pl l) n (n + 2) acc l (2 * l)) t
  (List.range (n - 1)).foldl
    (fun acc k =>
      let m := n - k
      let tmp := hGet acc pl m
      siftDown v pl tmp (m - 1) (n + 2) (hSet acc pl m (hGet acc pl 1)) 1 2) t

/-- Main loop of numpy `aquicksort`: explicit segment stack, depth budget
`2 * msb n`, partitioning large segments, insertion-sorting small ones. -/
def qsortLoop (v : Array Int) : Nat → Array Nat → Nat → Nat → List (Nat × Nat) → Int → Array Nat
  | 0, t, _, _, _, _ => t
  | fuel+1, t, pl, pr, stack, depth =>
    if 15 < pr - pl then
      if depth < 0 then
        let t := aheapsort v t pl (pr - pl + 1)
        match stack with
        | [] => t
        | (l, r) :: rest => qsortLoop v fuel t l r rest (depth - 1)
      else
        let step := qsortPartition v t pl pr
        let pi := step.2
        if pi - pl < pr - pi then
          qsortLoop v fuel step.1 pl (pi - 1) ((pi + 1, pr) :: stack) (depth - 1)
        else
          qsortLoop v fuel step.1 (pi + 1) pr ((pl, pi - 1) :: stack) (depth - 1)
    else
      let t := insSortRange v t pl pr
      match stack with
      | [] => t
      | (l, r) :: rest => qsortLoop v fuel t l r rest depth

/-- numpy `aquicksort(v, tosort = [0..n-1], n)`: the permutation produced by
`v.argsort(kind="quicksort")`. -/
def aquicksort (v : Array Int) : Array Nat :=
  qsortLoop v (2 * v.size + 4) (Array.range v.size) 0 (v.size - 1) []
    (2 * (Nat.log2 v.size : Int))

/-- pandas `nargsort(items, kind="quicksort", ascending=False,
na_position="last")`: the row indexer used by `sort_values` in main.py
line 146. -/
def nargsortDescNaLast (items : List (Option Int)) : List Nat :=
  let idx := List.range items.length
  let nanIdx := idx.filter (fun i => (items.getD i none).isNone)
  let nonNanIdxR := (idx.filter (fun i => (items.getD i none).isSome)).reverse
  let nonNansR := nonNanIdxR.map (fun i => (items.getD i none).getD 0)
  let order := (aquicksort nonNansR.toArray).toList
  (order.map (fun k => nonNanIdxR.getD k 0)).reverse ++ nanIdx

/-- main.py lines 144-147: sort the converted batch by `Start_Time` descending
with nulls last, using pandas' default (quicksort) order. -/
def sortValuesStartTimeDesc (rows : List NormRecord) : List NormRecord :=
  (nargsortDescNaLast (rows.map (fun r => r.Start_Time))).filterMap (fun i => rows.get? i)

/-- RecordNormalizer: timestamp conversion followed by the batch sort
(main.py lines 127-147). -/
def normalizeBatch (rs : List AssertionRecord) : List NormRecord :=
  sortValuesStartTimeDesc (convertTimestamps rs)

/-! Load and view phase: main.py lines 121-162 and bigquery_client.py. -/

/-- Externally visible warehouse effects of the tail of `main`. -/
inductive Effect where
  | loadBatch (rows : List NormRecord)
  | defineViews
deriving DecidableEq, Repr

/-- Recognizer for the batch-append effect. -/
def isLoadEffect : Effect → Bool
  | Effect.loadBatch _ => true
  | Effect.defineViews => false

/-- main.py lines 121-162: if the batch is empty the run exits before loading;
otherwise the whole normalized batch is submitted once via `load_to_bigquery`
(a single `load_table_from_dataframe` job, bigquery_client.py line 96), and
`create_all_views` runs only when that call did not raise (`loadOk`). -/
def mainTail (assertion_data : List AssertionRecord) (loadOk : Bool) : List Effect :=
  if assertion_data.isEmpty then []
  else
    let df := normalizeBatch assertion_data
    if loadOk then [Effect.loadBatch df, Effect.defineViews]
    else [Effect.loadBatch df]

/-! Synthesis view: bigquery_client.py lines 106-132, the semantics of the
`CREATE OR REPLACE VIEW ..._synthesis_by_assertion` query evaluated over the
fact-table rows. -/

/-- BigQuery `TIMESTAMP_DIFF(End_Time, Start_Time, SECOND)`: the number of
whole seconds (truncated toward zero) between the two microsecond timestamps;
NULL when either operand is NULL. -/
def durationSeconds (r : NormRecord) : Option Int :=
  match r.End_Time, r.Start_Time with
  | some e, some s => some (Int.tdiv (e - s) 1000000)
  | _, _ => none

/-- BigQuery `ROUND(x)`: nearest integer, halfway cases away from zero,
computed on the reduced numerator and denominator as
`sign q * floor(|q| + 1/2)`. -/
def roundHalfAwayFromZero (q : ℚ) : Int :=
  if q.num < 0 then -((2 * (-q.num) + (q.den : Int)).fdiv (2 * (q.den : Int)))
  else (2 * q.num + (q.den : Int)).fdiv (2 * (q.den : Int))

/-- BigQuery `ROUND(x, 2)`. -/
def round2 (q : ℚ) : ℚ := (roundHalfAwayFromZero (q * 100) : ℚ) / 100

/-- One output row of the synthesis view. -/
structure SynthRow where
  Action_Name : String
  total_executions : Nat
  passed_executions : Nat
  failed_executions : Nat
  failure_percentage : ℚ
  avg_duration_seconds : Option ℚ
  min_duration_seconds : Option ℚ
  max_duration_seconds : Option ℚ
deriving DecidableEq, Repr

/-- The aggregates of the synthesis view for one `Action_Name` group
(bigquery_client.py lines 116-128): `COUNT(*)`, the two `COUNTIF`s, the
rounded failure percentage, and `ROUND(AVG/MIN/MAX(duration_seconds), 2)`
where SQL aggregates skip NULL durations and yield NULL on empty input. -/
def synthRowFor (rows : List NormRecord) (name : String) : SynthRow :=
  { Action_Name := name
    total_executions := (rows.filter (fun r => r.Action_Name = name)).length
    passed_executions :=
      ((rows.filter (fun r => r.Action_Name = name)).filter
        (fun r => r.State = "SUCCEEDED")).length
    failed_executions :=
      ((rows.filter (fun r => r.Action_Name = name)).filter
        (fun r => r.State = "FAILED")).length
    failure_percentage :=
      round2 (((((rows.filter (fun r => r.Action_Name = name)).filter
            (fun r => r.State = "FAILED")).length : ℚ)
          / (((rows.filter (fun r => r.Action_Name = name)).length : ℚ))) * 100)
    avg_duration_seconds :=
      if ((rows.filter (fun r => r.Action_Name = name)).filterMap durationSeconds).isEmpty
      then none
      else some (round2
        ((((rows.filter (fun r => r.Action_Name = name)).filterMap
              durationSeconds).map (fun d => (d : ℚ))).sum
          / ((((rows.filter (fun r => r.Action_Name = name)).filterMap
              durationSeconds).length : ℚ))))
    min_duration_seconds :=
      (((rows.filter (fun r => r.Action_Name = name)).filterMap durationSeconds).min?).map
        (fun d => round2 (d : ℚ))
    max_duration_seconds :=
      (((rows.filter (fun r => r.Action_Name = name)).filterMap durationSeconds).max?).map
        (fun d => round2 (d : ℚ)) }

/-- The `ORDER BY failure_percentage DESC, total_executions DESC` relation of
bigquery_client.py lines 129-131: `a` may precede `b`. -/
def synthOrder (a b : SynthRow) : Prop :=
  b.failure_percentage < a.failure_percentage
    ∨ (a.failure_percentage = b.failure_percentage
        ∧ b.total_executions ≤ a.total_executions)

instance : DecidableRel synthOrder := fun a b => by
  unfold synthOrder; infer_instance

instance : IsTotal SynthRow synthOrder := by
  constructor
  intro a b
  rcases lt_trichotomy a.failure_percentage b.failure_percentage with h | h | h
  · exact Or.inr (Or.inl h)
  · rcases Nat.le_total b.total_executions a.total_executions with h2 | h2
    · exact Or.inl (Or.inr ⟨h, h2⟩)
    · exact Or.inr (Or.inr ⟨h.symm, h2⟩)
  · exact Or.inl (Or.inl h)

instance : IsTrans SynthRow synthOrder := by
  constructor
  intro a b c hab hbc
  rcases hab with h1 | ⟨h1, h1t⟩ <;> rcases hbc with h2 | ⟨h2, h2t⟩
  · exact Or.inl (h2.trans h1)
  · exact Or.inl (by rw [← h2]; exact h1)
  · exact Or.inl (by rw [h1]; exact h2)
  · exact Or.inr ⟨h1.trans h2, h2t.trans h1t⟩

/-- The synthesis view : one aggregate row per distinct `Action_Name`, sorted
by the `ORDER BY` relation. -/
def synthesisView (rows : List NormRecord) : List SynthRow :=
  List.insertionSort synthOrder
    (((rows.map (fun r => r.Action_Name)).dedup).map (synthRowFor rows))

/-! Concrete inputs used by the closed theorems below. -/

/-- A batch of 17 fact rows sharing one Start_Time, with distinct names
recording the input order. -/
def eqBatch17 : List NormRecord :=
  (List.range 17).map (fun i =>
    { Start_Time := some 5
      End_Time := none
      Invocation_Name := "inv"
      Action_Name := "a" ++ toString i
      Database := "N/A"
      Schema := "N/A"
      State := "SUCCEEDED"
      Failure_Reason := "N/A" })

/-- The spec's four-element example batch: Start_Time values T3, null, T1, T2
with T3 > T2 > T1. -/
def exBatch4 : List NormRecord :=
  [ { Start_Time := some 3, End_Time := none, Invocation_Name := "inv",
      Action_Name := "a", Database := "N/A", Schema := "N/A",
      State := "SUCCEEDED", Failure_Reason := "N/A" },
    { Start_Time := none, End_Time := none, Invocation_Name := "inv",
      Action_Name := "b", Database := "N/A", Schema := "N/A",
      State := "SUCCEEDED", Failure_Reason := "N/A" },
    { Start_Time := some 1, End_Time := none, Invocation_Name := "inv",
      Action_Name := "c", Database := "N/A", Schema := "N/A",
      State := "SUCCEEDED", Failure_Reason := "N/A" },
    { Start_Time := some 2, End_Time := none, Invocation_Name := "inv",
      Action_Name := "d", Database := "N/A", Schema := "N/A",
      State := "SUCCEEDED", Failure_Reason := "N/A" } ]

/-- The spec's synthesis-view scenario: two fact rows with one Action_Name,
one SUCCEEDED (10 s) and one FAILED (30 s). -/
def scenarioRows : List NormRecord :=
  [ { Start_Time := some 0, End_Time := some 10000000, Invocation_Name := "i1",
      Action_Name := "orders_assertion", Database := "db", Schema := "sc",
      State := "SUCCEEDED", Failure_Reason := "N/A" },
    { Start_Time := some 0, End_Time := some 30000000, Invocation_Name := "i2",
      Action_Name := "orders_assertion", Database := "db", Schema := "sc",
      State := "FAILED", Failure_Reason := "boom" } ]

/-- The synthesis-view row the scenario should produce: 2 executions, one
passed, one failed, failure percentage 50, durations 10 s and 30 s. -/
def scenarioSynthRow : SynthRow :=
  { Action_Name := "orders_assertion"
    total_executions := 2
    passed_executions := 1
    failed_executions := 1
    failure_percentage := 50
    avg_duration_seconds := some 20
    min_duration_seconds := some 10
    max_duration_seconds := some 30 }

/-! Helper lemmas about the extraction loop. -/

/-- Fields of a successfully extracted record, read off main.py lines 95-119. -/
theorem extractFromAction_eq_some {n : String} {a : InvocationAction} {r : AssertionRecord}
    (h : extractFromAction n a = some r) :
    containsAssertion r.Action_Name = true
      ∧ r.Invocation_Name = n
      ∧ (r.State ≠ "FAILED" → r.Failure_Reason = "N/A")
      ∧ (a.state = some "FAILED" → a.failureReason = none → r.Failure_Reason = "N/A") := by
  unfold extractFromAction at h
  split at h
  case isTrue hc =>
    injection h with h
    subst h
    refine ⟨hc, rfl, ?_, ?_⟩
    · intro hs
      simp only at hs ⊢
      rw [if_neg hs]
    · intro h1 h2
      simp [h1, h2]
  case isFalse hc =>
    exact absurd h (by simp)

/-- Every record contributed by one invocation comes from `extractFromAction`
applied with that invocation's defaulted name. -/
theorem mem_processInvocation {processed : List String} {query : String → QueryOutcome}
    {inv : Invocation} {r : AssertionRecord}
    (h : r ∈ processInvocation processed query inv) :
    ∃ a : InvocationAction, extractFromAction (inv.name.getD "N/A") a = some r := by
  unfold processInvocation at h
  simp only at h
  split at h
  · simp at h
  · split at h
    · simp at h
    · split at h
      · simp at h
      · obtain ⟨a, _, ha⟩ := List.mem_filterMap.mp h
        exact ⟨a, ha⟩

/-- Every record of the collected batch comes from some listed invocation. -/
theorem mem_collectAssertionData {processed : List String} {query : String → QueryOutcome}
    {invocations : List Invocation} {r : AssertionRecord}
    (h : r ∈ collectAssertionData processed invocations query) :
    ∃ inv ∈ invocations, r ∈ processInvocation processed query inv := by
  unfold collectAssertionData at h
  exact List.mem_flatMap.mp h

/-! Claim theorems. -/

/-- C2: an invocation whose (defaulted) name is in the processed set
contributes zero records, and its contribution does not depend on the
action-query oracle at all, i.e. no actions are queried for it
(main.py lines 79-82). -/
theorem C2_processed_invocation_skipped
    (processed : List String) (query query' : String → QueryOutcome) (inv : Invocation)
    (h : inv.name.getD "N/A" ∈ processed) :
    processInvocation processed query inv = []
      ∧ processInvocation processed query inv = processInvocation processed query' inv := by
  unfold processInvocation
  simp [h]

/-- Witness for C2 at a concrete processed set and invocation. -/
theorem C2_processed_invocation_skipped_witness :
    processInvocation ["i1"] (fun _ => QueryOutcome.raised) ⟨some "i1"⟩ = []
      ∧ processInvocation ["i1"] (fun _ => QueryOutcome.raised) ⟨some "i1"⟩
          = processInvocation ["i1"] (fun _ => QueryOutcome.ok []) ⟨some "i1"⟩ :=
  C2_processed_invocation_skipped ["i1"] (fun _ => QueryOutcome.raised)
    (fun _ => QueryOutcome.ok []) ⟨some "i1"⟩ (by decide)

/-- C3: every record of the collected batch has an Action_Name containing
"assertion" case-insensitively, and an action whose target name lacks that
substring yields no record (main.py lines 95-98). -/
theorem C3_only_assertion_actions
    (processed : List String) (invocations : List Invocation) (query : String → QueryOutcome) :
    (∀ r ∈ collectAssertionData processed invocations query,
        containsAssertion r.Action_Name = true)
      ∧ (∀ (n : String) (a : InvocationAction),
          containsAssertion ((a.target.getD Target.empty).name.getD "") = false →
          extractFromAction n a = none) := by
  constructor
  · intro r hr
    obtain ⟨inv, _, hri⟩ := mem_collectAssertionData hr
    obtain ⟨a, ha⟩ := mem_processInvocation hri
    exact (extractFromAction_eq_some ha).1
  · intro n a hc
    unfold extractFromAction
    rw [if_neg]
    simp [hc]

/-- Witness for C3: a qualifying action's record passes the test, and a
non-qualifying action is dropped. -/
theorem C3_only_assertion_actions_witness :
    containsAssertion
        ({ Start_Time := none, End_Time := none, Invocation_Name := "i1",
           Action_Name := "my_assertion_check", Database := "N/A", Schema := "N/A",
           State := "SUCCEEDED", Failure_Reason := "N/A" } : AssertionRecord).Action_Name = true
      ∧ extractFromAction "i1"
          ⟨some ⟨some "build_table", none, none⟩, none, none, none⟩ = none :=
  ⟨(C3_only_assertion_actions [] [⟨some "i1"⟩]
      (fun _ => QueryOutcome.ok
        [⟨some ⟨some "my_assertion_check", none, none⟩, none, some "SUCCEEDED", none⟩])).1
      _ (by decide),
   (C3_only_assertion_actions [] [] (fun _ => QueryOutcome.raised)).2 "i1"
      ⟨some ⟨some "build_table", none, none⟩, none, none, none⟩ (by decide)⟩

/-- C4: a collected record whose State is not "FAILED" always carries
Failure_Reason "N/A", whatever the upstream payload held (main.py line 106). -/
theorem C4_failure_reason_na_when_not_failed
    (processed : List String) (invocations : List Invocation) (query : String → QueryOutcome) :
    ∀ r ∈ collectAssertionData processed invocations query,
      r.State ≠ "FAILED" → r.Failure_Reason = "N/A" := by
  intro r hr hs
  obtain ⟨inv, _, hri⟩ := mem_collectAssertionData hr
  obtain ⟨a, ha⟩ := mem_processInvocation hri
  exact (extractFromAction_eq_some ha).2.2.1 hs

/-- Witness for C4: a SUCCEEDED action with an upstream failureReason still
yields Failure_Reason "N/A". -/
theorem C4_failure_reason_na_when_not_failed_witness :
    ({ Start_Time := none, End_Time := none, Invocation_Name := "i1",
       Action_Name := "my_assertion_check", Database := "N/A", Schema := "N/A",
       State := "SUCCEEDED", Failure_Reason := "N/A" } : AssertionRecord).Failure_Reason
      = "N/A" :=
  C4_failure_reason_na_when_not_failed [] [⟨some "i1"⟩]
    (fun _ => QueryOutcome.ok
      [⟨some ⟨some "my_assertion_check", none, none⟩, none, some "SUCCEEDED", some "boom"⟩])
    _ (by decide) (by decide)

/-- C9: a FAILED action whose payload has no failureReason field yields a
record with the default Failure_Reason "N/A" (main.py line 106). -/
theorem C9_failed_without_reason_defaults_na
    (n : String) (a : InvocationAction) (r : AssertionRecord)
    (hstate : a.state = some "FAILED") (hreason : a.failureReason = none)
    (h : extractFromAction n a = some r) :
    r.Failure_Reason = "N/A" :=
  (extractFromAction_eq_some h).2.2.2 hstate hreason

/-- Witness for C9 at a concrete FAILED action without a failureReason. -/
theorem C9_failed_without_reason_defaults_na_witness :
    ({ Start_Time := none, End_Time := none, Invocation_Name := "i1",
       Action_Name := "my_assertion_check", Database := "N/A", Schema := "N/A",
       State := "FAILED", Failure_Reason := "N/A" } : AssertionRecord).Failure_Reason
      = "N/A" :=
  C9_failed_without_reason_defaults_na "i1"
    ⟨some ⟨some "my_assertion_check", none, none⟩, none, some "FAILED", none⟩
    _ rfl rfl (by decide)

/-- C10: an invocation without a "name" field is handled exactly like one
named "N/A": the processed-set test runs against "N/A" (so it is skipped for
every oracle once "N/A" is persisted), and otherwise every record it emits
carries Invocation_Name "N/A" (main.py lines 77-82, 113). -/
theorem C10_nameless_invocations_use_na
    (processed : List String) (query : String → QueryOutcome) (inv : Invocation)
    (h : inv.name = none) :
    processInvocation processed query inv
        = processInvocation processed query ⟨some "N/A"⟩
      ∧ ("N/A" ∈ processed → ∀ query', processInvocation processed query' inv = [])
      ∧ (∀ r ∈ processInvocation processed query inv, r.Invocation_Name = "N/A") := by
  obtain ⟨nm⟩ := inv
  simp only at h
  subst h
  refine ⟨rfl, ?_, ?_⟩
  · intro hmem query'
    unfold processInvocation
    simp [hmem]
  · intro r hr
    obtain ⟨a, ha⟩ := mem_processInvocation hr
    exact (extractFromAction_eq_some ha).2.1

/-- Witness for C10: with "N/A" persisted a nameless invocation is skipped,
and with an empty processed set its record is named "N/A". -/
theorem C10_nameless_invocations_use_na_witness :
    (∀ query', processInvocation ["N/A"] query' ⟨none⟩ = [])
      ∧ (∀ r ∈ processInvocation []
            (fun _ => QueryOutcome.ok
              [⟨some ⟨some "my_assertion_check", none, none⟩, none, some "SUCCEEDED", none⟩])
            ⟨none⟩, r.Invocation_Name = "N/A") :=
  ⟨(C10_nameless_invocations_use_na ["N/A"] (fun _ => QueryOutcome.raised) ⟨none⟩ rfl).2.1
      (by decide),
   (C10_nameless_invocations_use_na []
      (fun _ => QueryOutcome.ok
        [⟨some ⟨some "my_assertion_check", none, none⟩, none, some "SUCCEEDED", none⟩])
      ⟨none⟩ rfl).2.2⟩

/-- C5: timestamp conversion is an element-wise map: each of the two timestamp
fields is converted independently to a timezone-naive microsecond timestamp, a
missing or unparsable value becomes null for that field alone, no other field
and no other record is touched, and no error is possible (the conversion is a
total function; main.py lines 127-142). -/
theorem C5_conversion_per_field_coercion
    (rs : List AssertionRecord) (r : AssertionRecord) (s : String) (ns : Int) :
    convertTimestamps rs = rs.map convertRecord
      ∧ (convertRecord r).Start_Time = convertTime r.Start_Time
      ∧ (convertRecord r).End_Time = convertTime r.End_Time
      ∧ (convertRecord r).Invocation_Name = r.Invocation_Name
      ∧ (convertRecord r).Action_Name = r.Action_Name
      ∧ (convertRecord r).Database = r.Database
      ∧ (convertRecord r).Schema = r.Schema
      ∧ (convertRecord r).State = r.State
      ∧ (convertRecord r).Failure_Reason = r.Failure_Reason
      ∧ convertTime none = none
      ∧ convertTime (some (RawTime.malformed s)) = none
      ∧ convertTime (some (RawTime.instant ns)) = some (rdivHalfEven ns 1000) :=
  ⟨rfl, rfl, rfl, rfl, rfl, rfl, rfl, rfl, rfl, rfl, rfl, rfl⟩

/-- C6: both API wrappers return the empty list on an HTTP or transport
failure instead of raising (dataform_api.py lines 17-22, 33-38); the
extraction loop treats each invocation independently, so an invocation whose
action query fails contributes nothing while all other invocations are
processed unchanged (main.py lines 85-92). -/
theorem C6_transport_failures_absorbed :
    (list_workflow_invocations ApiResult.httpError = []
        ∧ list_workflow_invocations ApiResult.requestException = [])
      ∧ (query_invocation_actions ApiResult.httpError = []
        ∧ query_invocation_actions ApiResult.requestException = [])
      ∧ (∀ (processed : List String) (query : String → QueryOutcome)
            (pre post : List Invocation) (inv : Invocation),
          collectAssertionData processed (pre ++ inv :: post) query
            = collectAssertionData processed pre query
                ++ processInvocation processed query inv
                ++ collectAssertionData processed post query)
      ∧ (∀ (processed : List String) (api : String → ApiResult (List InvocationAction))
            (inv : Invocation),
          (api (inv.name.getD "N/A") = ApiResult.httpError
              ∨ api (inv.name.getD "N/A") = ApiResult.requestException) →
          processInvocation processed
              (fun nm => QueryOutcome.ok (query_invocation_actions (api nm))) inv = []) := by
  refine ⟨⟨rfl, rfl⟩, ⟨rfl, rfl⟩, ?_, ?_⟩
  · intro processed query pre post inv
    unfold collectAssertionData
    simp
  · intro processed api inv h
    unfold processInvocation
    rcases h with h | h <;> simp [h, query_invocation_actions]

/-- Witness for C6: a failing action query for a listed invocation yields an
empty contribution. -/
theorem C6_transport_failures_absorbed_witness :
    processInvocation []
        (fun nm => QueryOutcome.ok (query_invocation_actions
          ((fun _ => (ApiResult.httpError : ApiResult (List InvocationAction))) nm)))
        ⟨some "i1"⟩ = [] :=
  C6_transport_failures_absorbed.2.2.2 [] (fun _ => ApiResult.httpError) ⟨some "i1"⟩
    (Or.inl rfl)

/-- C8: the run performs at most one batch append; if the append fails no view
definition is attempted; and whenever views are defined, the append of the
whole normalized batch happened first and succeeded (main.py lines 149-162,
bigquery_client.py lines 74-104). -/
theorem C8_views_only_after_successful_load
    (assertion_data : List AssertionRecord) (loadOk : Bool) :
    (mainTail assertion_data loadOk).countP isLoadEffect ≤ 1
      ∧ (loadOk = false → Effect.defineViews ∉ mainTail assertion_data loadOk)
      ∧ (Effect.defineViews ∈ mainTail assertion_data loadOk →
          loadOk = true
            ∧ mainTail assertion_data loadOk
                = [Effect.loadBatch (normalizeBatch assertion_data), Effect.defineViews]) := by
  unfold mainTail
  by_cases he : assertion_data.isEmpty <;> cases loadOk <;>
    simp [he, List.countP_cons, isLoadEffect]

/-- Witness for C8: with a failing load at a concrete one-record batch, no
view definition happens. -/
theorem C8_views_only_after_successful_load_witness :
    Effect.defineViews ∉
      mainTail [{ Start_Time := none, End_Time := none, Invocation_Name := "i1",
                  Action_Name := "my_assertion_check", Database := "N/A", Schema := "N/A",
                  State := "SUCCEEDED", Failure_Reason := "N/A" }] false :=
  (C8_views_only_after_successful_load _ false).2.1 rfl

/-- C1 (code behavior at the failing input): on a batch of 17 records sharing
one Start_Time the sort of main.py line 146 (pandas default quicksort) does
not preserve the input order of the equal keys, while the spec's 4-element
example [T3, null, T1, T2] does come out as [T3, T2, T1, null]. -/
theorem C1_equal_start_times_not_input_order :
    ((sortValuesStartTimeDesc eqBatch17).map (fun r => r.Action_Name)
        = ["a0", "a9", "a15", "a14", "a13", "a12", "a11", "a10", "a8", "a1",
           "a7", "a6", "a5", "a4", "a3", "a2", "a16"])
      ∧ ((sortValuesStartTimeDesc eqBatch17).map (fun r => r.Action_Name)
          ≠ eqBatch17.map (fun r => r.Action_Name))
      ∧ (∀ r ∈ eqBatch17, r.Start_Time = some 5)
      ∧ ((sortValuesStartTimeDesc exBatch4).map (fun r => r.Start_Time)
          = [some 3, some 2, some 1, none]) := by
  set_option maxRecDepth 8000 in
  refine ⟨by decide, by decide, by decide, by decide⟩

/-- C7: the synthesis view has one row per distinct Action_Name of the fact
table; each row's aggregates are the counts, the rounded failure percentage
round(100 * failed / total, 2), and the rounded average/min/max of the
whole-second durations; the rows are sorted by failure percentage then total
executions, both descending; and the two-row scenario (one SUCCEEDED, one
FAILED with one shared Action_Name) yields total_executions = 2 and
failure_percentage = 50 (bigquery_client.py lines 106-132). -/
theorem C7_synthesis_view (rows : List NormRecord) :
    ((synthesisView rows).map (fun s => s.Action_Name)).Nodup
      ∧ (∀ n : String,
          n ∈ (synthesisView rows).map (fun s => s.Action_Name)
            ↔ n ∈ rows.map (fun r => r.Action_Name))
      ∧ (∀ s ∈ synthesisView rows,
          s = synthRowFor rows s.Action_Name
            ∧ s.total_executions
                = (rows.filter (fun r => r.Action_Name = s.Action_Name)).length
            ∧ s.passed_executions
                = ((rows.filter (fun r => r.Action_Name = s.Action_Name)).filter
                    (fun r => r.State = "SUCCEEDED")).length
            ∧ s.failed_executions
                = ((rows.filter (fun r => r.Action_Name = s.Action_Name)).filter
                    (fun r => r.State = "FAILED")).length
            ∧ s.failure_percentage
                = round2 (100 * (s.failed_executions : ℚ) / (s.total_executions : ℚ)))
      ∧ List.Sorted synthOrder (synthesisView rows)
      ∧ synthesisView scenarioRows = [scenarioSynthRow] := by
  have hview : List.Perm (synthesisView rows)
      (((rows.map (fun r => r.Action_Name)).dedup).map (synthRowFor rows)) := by
    unfold synthesisView
    exact List.perm_insertionSort _ _
  have hnames := hview.map (fun s => s.Action_Name)
  have hmapname :
      ((((rows.map (fun r => r.Action_Name)).dedup).map (synthRowFor rows)).map
        (fun s => s.Action_Name)) = (rows.map (fun r => r.Action_Name)).dedup := by
    rw [List.map_map]
    exact List.map_id _
  rw [hmapname] at hnames
  refine ⟨hnames.nodup_iff.mpr (List.nodup_dedup _), ?_, ?_, ?_, ?_⟩
  · intro n
    rw [hnames.mem_iff]
    exact List.mem_dedup
  · intro s hs
    obtain ⟨n, _, rfl⟩ := List.mem_map.mp (hview.subset hs)
    refine ⟨rfl, rfl, rfl, rfl, ?_⟩
    simp only [synthRowFor]
    exact congrArg round2 (by ring)
  · unfold synthesisView
    exact List.sorted_insertionSort _ _
  · have h1 : (scenarioRows.map (fun r => r.Action_Name)).dedup = ["orders_assertion"] := by
      decide
    have h2 : synthRowFor scenarioRows "orders_assertion" = scenarioSynthRow := by
      have hgrp : scenarioRows.filter (fun r => r.Action_Name = "orders_assertion")
          = scenarioRows := by decide
      have hdurs : scenarioRows.filterMap durationSeconds = [10, 30] := by decide
      have hpass : (scenarioRows.filter (fun r => r.State = "SUCCEEDED")).length = 1 := by
        decide
      have hfail : (scenarioRows.filter (fun r => r.State = "FAILED")).length = 1 := by
        decide
      have hlen : scenarioRows.length = 2 := by decide
      have hmin : ([10, 30] : List Int).min? = some 10 := by decide
      have hmax : ([10, 30] : List Int).max? = some 30 := by decide
      unfold synthRowFor
      rw [hgrp, hdurs, hpass, hfail, hlen, hmin, hmax]
      unfold scenarioSynthRow
      norm_num [round2, roundHalfAwayFromZero, Int.fdiv, SynthRow.mk.injEq]
    unfold synthesisView
    rw [h1, List.map_cons, List.map_nil, h2]
    simp [List.insertionSort, List.orderedInsert]

/-- Witness for C7 at the scenario input: the scenario's single view row is
exactly the aggregate row computed for its Action_Name. -/
theorem C7_synthesis_view_witness :
    scenarioSynthRow = synthRowFor scenarioRows scenarioSynthRow.Action_Name := by
  have h := C7_synthesis_view scenarioRows
  exact (h.2.2.1 scenarioSynthRow (by rw [h.2.2.2.2]; exact List.mem_singleton_self _)).1
